import Mathlib

/-!
Verification of the QR-code storage/metadata core of `app.py`.

The embedding models the storage backend as an association list from blob
names to blob contents, the metadata sidecar records as a structure with the
five fields of the Python dict, and each FastAPI handler as a function from
a storage state (plus a fault specification for the storage calls the
handler makes) to a new storage state and an HTTP response.  Timestamps are
natural numbers: the handler computes `now` once at the start of a call, as
`update_metadata` does with `datetime.now(timezone.utc)`.

Parsing of a stored sidecar (`eval(metadata_content.decode())` in the
source) is modelled by the shape of the stored blob: a blob is either raw
image bytes, a well-typed metadata record (the bytes evaluate to a dict
with the five fields of the expected types), or corrupt bytes (anything
whose evaluation or field access raises).
-/

/-- A metadata sidecar record: the flat dict built in `update_metadata`
(`app.py` lines 261-268).  `created_at`/`last_accessed` are ISO-8601 UTC
strings in the source; time is modelled as `Nat`. -/
structure Metadata where
  code_id : String
  data : String
  size : Int
  created_at : Nat
  last_accessed : Nat
  access_count : Int
  deriving Repr, DecidableEq

/-- Contents of a stored blob.  `meta m` stands for bytes that
`eval` parses into a well-typed metadata dict `m`; `corrupt` stands for
bytes whose `eval` (or subsequent field access) raises; `image` is raw
image bytes. -/
inductive BlobContent where
  | image (bytes : String)
  | meta (m : Metadata)
  | corrupt (bytes : String)
  deriving Repr, DecidableEq

/-- The object store: blob name to blob content, no duplicate semantics —
lookups take the first binding and uploads remove older ones. -/
abbrev Storage := List (String × BlobContent)

/-- Model of `storage.download_blob` plus full accumulation of the chunk
stream, as a pure lookup of the stored bytes. -/
def lookupBlob : Storage → String → Option BlobContent
  | [], _ => none
  | (n, c) :: t, name => if n = name then some c else lookupBlob t name

/-- Model of `storage.blob_exists(name)`: both backends return a `Bool` and
swallow their not-found errors (`app.py` lines 105-111, 182-187). -/
def blob_exists (st : Storage) (name : String) : Bool :=
  (lookupBlob st name).isSome

/-- Drop every binding of `name`. -/
def removeBlob : Storage → String → Storage
  | [], _ => []
  | (n, c) :: t, name =>
    if n = name then removeBlob t name else (n, c) :: removeBlob t name

/-- Model of `storage.upload_blob(name, data)`: overwrites any existing object at
`name` (`overwrite=True` for Azure, `put_object` for MinIO). -/
def uploadBlob (st : Storage) (name : String) (content : BlobContent) : Storage :=
  (name, content) :: removeBlob st name

/-- Model of `storage.delete_blob(name)`: removes the object at `name`. -/
def deleteBlob (st : Storage) (name : String) : Storage :=
  removeBlob st name

/-- Fuel-indexed worker for `pyReplace`: structural recursion on the fuel
keeps the function kernel-reducible.  With fuel at least the length of the
input the fuel never runs out. -/
def pyReplaceFuel (pat sub : List Char) : Nat → List Char → List Char
  | _, [] => []
  | 0, l => l
  | fuel + 1, c :: rest =>
    if pat.isPrefixOf (c :: rest) ∧ 0 < pat.length then
      sub ++ pyReplaceFuel pat sub fuel (rest.drop (pat.length - 1))
    else
      c :: pyReplaceFuel pat sub fuel rest

/-- Python `s.replace(pat, sub)` on character lists: replace every
non-overlapping occurrence of `pat`, scanning left to right.  (For the
empty pattern, which the handlers never pass, this is the identity rather
than Python's insert-everywhere behaviour.) -/
def pyReplace (pat sub l : List Char) : List Char :=
  pyReplaceFuel pat sub l.length l

/-- Python `code_id.replace(".png", "")`, as used by every handler that derives
the sidecar identifier from a caller-visible `code_id`. -/
def stripPng (s : String) : String :=
  ⟨pyReplace ".png".data [] s.data⟩

/-- The sidecar blob name `f"{code_id}.metadata"` (`app.py` line 241). -/
def metadataBlobName (code_id : String) : String :=
  code_id ++ ".metadata"

/-- The sidecar key a create/upload/get/delete handler associates with a
caller-visible `code_id`: strip the image suffix, append the metadata
suffix. -/
def sidecarName (code_id : String) : String :=
  metadataBlobName (stripPng code_id)

/-- The fresh record synthesized by the `except` branch of
`update_metadata` (`app.py` lines 260-268). -/
def freshMetadata (code_id data : String) (size : Int) (now : Nat) : Metadata :=
  { code_id := code_id
    data := data
    size := size
    created_at := now
    last_accessed := now
    access_count := 1 }

/-- Which storage calls fail (raise) during one handler invocation.
`blob_exists` never raises in either backend, so it has no flag. -/
structure FaultSpec where
  downloadMetaFails : Bool
  uploadMetaFails : Bool
  uploadImageFails : Bool
  downloadImageFails : Bool
  deriving Repr, DecidableEq

/-- The fault specification under which every storage call succeeds. -/
def noFault : FaultSpec :=
  { downloadMetaFails := false
    uploadMetaFails := false
    uploadImageFails := false
    downloadImageFails := false }

/-- Model of `update_metadata(code_id, data, size, is_access)` (`app.py` lines
239-272).  The `try` block reads and merges the existing sidecar; any
failure inside it (absent sidecar, download error, unparseable bytes)
falls back to a fresh record.  The final `upload_blob` is outside the
`try`: its failure propagates to the caller, modelled as `Except.error`. -/
def update_metadata (st : Storage) (fs : FaultSpec) (code_id data : String)
    (size : Int) (is_access : Bool) (now : Nat) :
    Except Unit (Storage × Metadata) :=
  let name := metadataBlobName code_id
  let metadata :=
    match lookupBlob st name with
    | some (BlobContent.meta m) =>
      if fs.downloadMetaFails then
        freshMetadata code_id data size now
      else if is_access then
        { m with access_count := m.access_count + 1, last_accessed := now }
      else
        m
    | some _ => freshMetadata code_id data size now
    | none => freshMetadata code_id data size now
  if fs.uploadMetaFails then
    Except.error ()
  else
    Except.ok (uploadBlob st name (BlobContent.meta metadata), metadata)

/-- An HTTP response: status code, plus the parsed record for the
metadata endpoint's 200 body. -/
structure Resp where
  status : Nat
  body : Option Metadata := none
  deriving Repr, DecidableEq

/-- Modelled from the spec: the QR-image renderer is external glue,
"treated as a pure function `render(data, size) -> image bytes`"
(`generate_qr_code`, `app.py` lines 220-237, uses the `qrcode` and PIL
libraries, which are not part of this repository's core). -/
def generate_qr_code (data : String) (size : Int) : String :=
  "PNG[" ++ toString size ++ "]" ++ data

/-- Handler for `POST /api/qrcodes` (`create_qr_code`, `app.py` lines 274-289):
render, upload the image at `f"{uuid4()}.png"`, upsert metadata
(non-access), respond 201.  The handler has no `try`/`except`, so a
raised storage error escapes to the framework as an unhandled error
(modelled as status 500). -/
def create_qr_code (st : Storage) (fs : FaultSpec) (uuid data : String)
    (size : Int) (now : Nat) : Storage × Resp :=
  let code_id := uuid ++ ".png"
  if fs.uploadImageFails then
    (st, { status := 500 })
  else
    let st1 := uploadBlob st code_id (BlobContent.image (generate_qr_code data size))
    match update_metadata st1 fs (stripPng code_id) data size false now with
    | Except.error _ => (st1, { status := 500 })
    | Except.ok (st2, _) => (st2, { status := 201 })

/-- Handler for `PUT /api/qrcodes/{code_id}` (`upload_qr_code`, `app.py` lines
291-310): reject non-PNG content types with 400 before any storage call,
otherwise upload the file and upsert metadata (non-access) from the
`X-Qr-Data`/`X-Qr-Size` headers.  No `try`/`except`: storage errors
escape as unhandled (status 500). -/
def upload_qr_code (st : Storage) (fs : FaultSpec)
    (code_id contentType fileBytes xData : String) (xSize : Int)
    (now : Nat) : Storage × Resp :=
  if contentType ≠ "image/png" then
    (st, { status := 400 })
  else if fs.uploadImageFails then
    (st, { status := 500 })
  else
    let st1 := uploadBlob st code_id (BlobContent.image fileBytes)
    match update_metadata st1 fs (stripPng code_id) xData xSize false now with
    | Except.error _ => (st1, { status := 500 })
    | Except.ok (st2, _) => (st2, { status := 201 })

/-- Handler for `GET /api/qrcodes/{code_id}` (`get_qr_code`, `app.py` lines 312-328):
the whole body is inside `try`/`except` mapping every exception to 404.
Existence check, then the access-event upsert, then `download_blob` for
the streamed body.  A failure of the upsert's final metadata upload, or
of the image download, is caught here and yields 404 (the metadata
written before the failing call stays written). -/
def get_qr_code (st : Storage) (fs : FaultSpec) (code_id : String)
    (now : Nat) : Storage × Resp :=
  if ¬ blob_exists st code_id then
    (st, { status := 404 })
  else
    match update_metadata st fs (stripPng code_id) "" 0 true now with
    | Except.error _ => (st, { status := 404 })
    | Except.ok (st1, _) =>
      if fs.downloadImageFails then
        (st1, { status := 404 })
      else
        (st1, { status := 200 })

/-- Handler for `GET /api/qrcodes/{code_id}/metadata` (`get_qr_code_metadata`,
`app.py` lines 330-349): the sidecar key is `f"{code_id}.metadata"` with
no suffix stripping.  Absent sidecar, download failure, or unparseable
bytes all yield 404 via the surrounding `try`/`except`. -/
def get_qr_code_metadata (st : Storage) (fs : FaultSpec)
    (code_id : String) : Storage × Resp :=
  let name := metadataBlobName code_id
  if ¬ blob_exists st name then
    (st, { status := 404 })
  else if fs.downloadMetaFails then
    (st, { status := 404 })
  else
    match lookupBlob st name with
    | some (BlobContent.meta m) => (st, { status := 200, body := some m })
    | _ => (st, { status := 404 })

/-- Handler for `HEAD /api/qrcodes/{code_id}` (`check_qr_code`, `app.py` lines
351-360): existence check, 200 or 404. -/
def check_qr_code (st : Storage) (code_id : String) : Storage × Resp :=
  if blob_exists st code_id then
    (st, { status := 200 })
  else
    (st, { status := 404 })

/-- Handler for `DELETE /api/qrcodes/{code_id}` (`delete_qr_code`, `app.py` lines
362-374): delete the image (raises not-found if absent), then delete the
sidecar at the stripped key if it exists; every exception becomes 404;
success is 204. -/
def delete_qr_code (st : Storage) (code_id : String) : Storage × Resp :=
  if ¬ blob_exists st code_id then
    (st, { status := 404 })
  else
    let st1 := deleteBlob st code_id
    let name := sidecarName code_id
    if blob_exists st1 name then
      (deleteBlob st1 name, { status := 204 })
    else
      (st1, { status := 204 })

/-- A request to one of the six endpoints. -/
inductive Request where
  | create (data : String) (size : Int)
  | upload (code_id contentType fileBytes xData : String) (xSize : Int)
  | getImage (code_id : String)
  | getMeta (code_id : String)
  | headCheck (code_id : String)
  | deleteCode (code_id : String)
  deriving Repr, DecidableEq

/-- Dispatch a request to its handler.  `uuid` is the random token drawn
by the create handler; `now` the timestamp of the call. -/
def handle (st : Storage) (fs : FaultSpec) (uuid : String) (now : Nat) :
    Request → Storage × Resp
  | Request.create data size => create_qr_code st fs uuid data size now
  | Request.upload code_id ct fileBytes xData xSize =>
    upload_qr_code st fs code_id ct fileBytes xData xSize now
  | Request.getImage code_id => get_qr_code st fs code_id now
  | Request.getMeta code_id => get_qr_code_metadata st fs code_id
  | Request.headCheck code_id => check_qr_code st code_id
  | Request.deleteCode code_id => delete_qr_code st code_id

/-- Requests whose handlers wrap their whole body in `try`/`except
Exception` (image get, metadata get, head, delete); the create and upload
handlers have no such wrapper. -/
def handledPath : Request → Bool
  | Request.create _ _ => false
  | Request.upload _ _ _ _ _ => false
  | Request.getImage _ => true
  | Request.getMeta _ => true
  | Request.headCheck _ => true
  | Request.deleteCode _ => true

/-! ### Storage lemmas -/

theorem lookupBlob_removeBlob (st : Storage) (k n : String) :
    lookupBlob (removeBlob st n) k = if k = n then none else lookupBlob st k := by
  induction st with
  | nil => simp [lookupBlob, removeBlob]
  | cons p t ih =>
    obtain ⟨m, c⟩ := p
    by_cases h1 : m = n
    · rw [show removeBlob ((m, c) :: t) n = removeBlob t n by simp [removeBlob, h1], ih]
      by_cases hk : k = n
      · simp [hk]
      · have hmk : m ≠ k := fun hmk => hk (hmk ▸ h1)
        simp [lookupBlob, hk, hmk]
    · rw [show removeBlob ((m, c) :: t) n = (m, c) :: removeBlob t n by
        simp [removeBlob, h1]]
      by_cases h2 : m = k
      · have hk : ¬ k = n := fun hkn => h1 (h2.trans hkn)
        simp [lookupBlob, h2, hk]
      · simp [lookupBlob, h2, ih]

theorem lookupBlob_uploadBlob (st : Storage) (k n : String) (c : BlobContent) :
    lookupBlob (uploadBlob st n c) k = if k = n then some c else lookupBlob st k := by
  by_cases h : k = n <;>
    simp [uploadBlob, lookupBlob, lookupBlob_removeBlob, h, eq_comm]

theorem lookupBlob_deleteBlob (st : Storage) (k n : String) :
    lookupBlob (deleteBlob st n) k = if k = n then none else lookupBlob st k := by
  simp [deleteBlob, lookupBlob_removeBlob]

theorem charsPreOf {l₁ l₂ : List Char} :
    l₁.isPrefixOf l₂ = true ↔ l₁ <+: l₂ :=
  List.isPrefixOf_iff_prefix

theorem pyReplaceFuel_eq_self_of_no_occ (pat sub : List Char) (fuel : Nat)
    (l : List Char) (h : ¬ pat <:+: l) : pyReplaceFuel pat sub fuel l = l := by
  induction fuel generalizing l with
  | zero => cases l <;> rfl
  | succ fuel ih =>
    cases l with
    | nil => rfl
    | cons c rest =>
      have hguard : ¬ (pat.isPrefixOf (c :: rest) = true ∧ 0 < pat.length) := by
        rintro ⟨hpre, -⟩
        exact h (charsPreOf.mp hpre).isInfix
      rw [pyReplaceFuel, if_neg hguard,
        ih rest (fun hcont => h (List.infix_cons hcont))]

theorem pyReplace_eq_self_of_no_occ (pat sub : List Char) (l : List Char)
    (h : ¬ pat <:+: l) : pyReplace pat sub l = l :=
  pyReplaceFuel_eq_self_of_no_occ pat sub l.length l h

theorem stripPng_eq_self_of_no_occ (s : String)
    (h : ¬ (".png".data <:+: s.data)) : stripPng s = s := by
  obtain ⟨d⟩ := s
  simp only [stripPng]
  rw [pyReplace_eq_self_of_no_occ _ _ _ h]

/-- With a working metadata upload, `update_metadata` always succeeds. -/
theorem update_metadata_isOk (st : Storage) (fs : FaultSpec)
    (code_id data : String) (size : Int) (is_access : Bool) (now : Nat)
    (hup : fs.uploadMetaFails = false) :
    ∃ p, update_metadata st fs code_id data size is_access now = Except.ok p := by
  simp only [update_metadata, hup, Bool.false_eq_true, if_false]
  exact ⟨_, rfl⟩

/-- When the sidecar is absent, unparseable, or its read fails,
`update_metadata` synthesizes and stores the fresh record. -/
theorem update_metadata_fresh_eq (st : Storage) (fs : FaultSpec)
    (code_id data : String) (size : Int) (is_access : Bool) (now : Nat)
    (habs : (∀ m : Metadata,
        lookupBlob st (metadataBlobName code_id) ≠ some (BlobContent.meta m)) ∨
      fs.downloadMetaFails = true)
    (hup : fs.uploadMetaFails = false) :
    update_metadata st fs code_id data size is_access now =
      Except.ok (uploadBlob st (metadataBlobName code_id)
          (BlobContent.meta (freshMetadata code_id data size now)),
        freshMetadata code_id data size now) := by
  simp only [update_metadata, hup, Bool.false_eq_true, if_false]
  rcases hlk : lookupBlob st (metadataBlobName code_id) with - | c
  · rfl
  · cases c with
    | image b => rfl
    | corrupt b => rfl
    | meta m =>
      rcases habs with habs | hdl
      · exact absurd hlk (habs m)
      · simp [hdl]

/-- C1: for every `code_id` whose metadata sidecar exists and parses, the
access-event upsert stores and returns a record whose `access_count` is
the old count plus one and whose `last_accessed` is the timestamp computed
at the start of the call. -/
theorem c1_access_event_increments (st : Storage) (fs : FaultSpec)
    (code_id d : String) (size : Int) (now : Nat) (m : Metadata)
    (hm : lookupBlob st (metadataBlobName code_id) = some (BlobContent.meta m))
    (hdl : fs.downloadMetaFails = false)
    (hup : fs.uploadMetaFails = false) :
    ∃ st' r, update_metadata st fs code_id d size true now = Except.ok (st', r) ∧
      r.access_count = m.access_count + 1 ∧
      r.last_accessed = now ∧
      lookupBlob st' (metadataBlobName code_id) = some (BlobContent.meta r) := by
  have heq : update_metadata st fs code_id d size true now =
      Except.ok (uploadBlob st (metadataBlobName code_id)
          (BlobContent.meta
            { m with access_count := m.access_count + 1, last_accessed := now }),
        { m with access_count := m.access_count + 1, last_accessed := now }) := by
    simp only [update_metadata, hm, hdl, hup, Bool.false_eq_true, if_false, ite_true]
  refine ⟨_, _, heq, rfl, rfl, ?_⟩
  rw [lookupBlob_uploadBlob]
  simp

/-- Closed witness for `c1_access_event_increments`. -/
theorem c1_access_event_increments_witness :
    ∃ st' r,
      update_metadata [("a.metadata", BlobContent.meta (freshMetadata "a" "d" 3 0))]
          noFault "a" "x" 9 true 5 = Except.ok (st', r) ∧
      r.access_count = (freshMetadata "a" "d" 3 0).access_count + 1 ∧
      r.last_accessed = 5 ∧
      lookupBlob st' (metadataBlobName "a") = some (BlobContent.meta r) :=
  c1_access_event_increments _ noFault "a" "x" 9 5 _ (by decide) rfl rfl

/-- C3: a non-access upsert on an existing, parseable sidecar stores and
returns exactly the old record — every field (`code_id`, `data`, `size`,
`created_at`, `last_accessed`, `access_count`) is unchanged, whatever
`data`/`size` arguments the caller passed. -/
theorem c3_nonaccess_preserves_record (st : Storage) (fs : FaultSpec)
    (code_id d : String) (size : Int) (now : Nat) (m : Metadata)
    (hm : lookupBlob st (metadataBlobName code_id) = some (BlobContent.meta m))
    (hdl : fs.downloadMetaFails = false)
    (hup : fs.uploadMetaFails = false) :
    ∃ st', update_metadata st fs code_id d size false now = Except.ok (st', m) ∧
      lookupBlob st' (metadataBlobName code_id) = some (BlobContent.meta m) := by
  have heq : update_metadata st fs code_id d size false now =
      Except.ok (uploadBlob st (metadataBlobName code_id) (BlobContent.meta m), m) := by
    simp only [update_metadata, hm, hdl, hup, Bool.false_eq_true, if_false, ite_false]
  refine ⟨_, heq, ?_⟩
  rw [lookupBlob_uploadBlob]
  simp

/-- Closed witness for `c3_nonaccess_preserves_record`. -/
theorem c3_nonaccess_preserves_record_witness :
    ∃ st',
      update_metadata [("a.metadata", BlobContent.meta (freshMetadata "a" "d" 3 0))]
          noFault "a" "other" 77 false 5 =
        Except.ok (st', freshMetadata "a" "d" 3 0) ∧
      lookupBlob st' (metadataBlobName "a") =
        some (BlobContent.meta (freshMetadata "a" "d" 3 0)) :=
  c3_nonaccess_preserves_record _ noFault "a" "other" 77 5 _ (by decide) rfl rfl

/-- C4: when the sidecar is absent, unparseable, or its read fails, the
upsert stores and returns a fresh record with `access_count = 1`,
`created_at = last_accessed = now`, and `data`/`size` from the call's
arguments. -/
theorem c4_fresh_record_on_read_failure (st : Storage) (fs : FaultSpec)
    (code_id d : String) (size : Int) (is_access : Bool) (now : Nat)
    (habs : (∀ m : Metadata,
        lookupBlob st (metadataBlobName code_id) ≠ some (BlobContent.meta m)) ∨
      fs.downloadMetaFails = true)
    (hup : fs.uploadMetaFails = false) :
    ∃ st' r, update_metadata st fs code_id d size is_access now = Except.ok (st', r) ∧
      r.access_count = 1 ∧
      r.created_at = now ∧
      r.last_accessed = now ∧
      r.data = d ∧
      r.size = size ∧
      lookupBlob st' (metadataBlobName code_id) = some (BlobContent.meta r) := by
  refine ⟨_, _, update_metadata_fresh_eq st fs code_id d size is_access now habs hup,
    rfl, rfl, rfl, rfl, rfl, ?_⟩
  rw [lookupBlob_uploadBlob]
  simp

/-- Closed witness for `c4_fresh_record_on_read_failure`. -/
theorem c4_fresh_record_on_read_failure_witness :
    ∃ st' r,
      update_metadata [("b", BlobContent.corrupt "junk"), ("b.metadata", BlobContent.corrupt "junk")]
          noFault "b" "dd" 42 false 6 = Except.ok (st', r) ∧
      r.access_count = 1 ∧
      r.created_at = 6 ∧
      r.last_accessed = 6 ∧
      r.data = "dd" ∧
      r.size = 42 ∧
      lookupBlob st' (metadataBlobName "b") = some (BlobContent.meta r) :=
  c4_fresh_record_on_read_failure _ noFault "b" "dd" 42 false 6
    (Or.inl (by
      intro m h
      rw [show lookupBlob
          [("b", BlobContent.corrupt "junk"), ("b.metadata", BlobContent.corrupt "junk")]
          (metadataBlobName "b") = some (BlobContent.corrupt "junk") from by decide] at h
      simp at h)) rfl

/-- Counterexample to C2 as stated: the image blob exists, every storage
call succeeds except the upsert's final metadata upload, and the GET-image
handler answers 404, not 200 — the upload failure raises out of
`update_metadata` into the handler's catch-all `except`. -/
theorem c2_counterexample :
    blob_exists [("abc.png", BlobContent.image "bytes")] "abc.png" = true ∧
    (get_qr_code [("abc.png", BlobContent.image "bytes")]
        { downloadMetaFails := false, uploadMetaFails := true,
          uploadImageFails := false, downloadImageFails := false }
        "abc.png" 5).2.status = 404 := by
  constructor
  · decide
  · decide

/-- C2 (amended): for every `code_id` whose image blob exists, the
GET-image handler returns 200 even when the metadata *read* inside the
access-event upsert fails (the upsert recovers with a fresh record) — but
only provided the upsert's final metadata upload and the image download
succeed; a failing metadata upload raises out of the upsert and the
handler answers 404. -/
theorem c2_image_served_despite_meta_read_failure (st : Storage)
    (fs : FaultSpec) (code_id : String) (now : Nat)
    (himg : blob_exists st code_id = true)
    (hup : fs.uploadMetaFails = false)
    (hdl : fs.downloadImageFails = false) :
    (get_qr_code st fs code_id now).2.status = 200 := by
  obtain ⟨⟨st1, r⟩, hok⟩ :=
    update_metadata_isOk st fs (stripPng code_id) "" 0 true now hup
  simp [get_qr_code, himg, hok, hdl]

/-- Closed witness for `c2_image_served_despite_meta_read_failure`: the
sidecar read fails, the image is still served. -/
theorem c2_image_served_witness :
    (get_qr_code [("a.png", BlobContent.image "i")]
        { downloadMetaFails := true, uploadMetaFails := false,
          uploadImageFails := false, downloadImageFails := false }
        "a.png" 3).2.status = 200 :=
  c2_image_served_despite_meta_read_failure _ _ "a.png" 3 (by decide) rfl rfl

/-- C7: a PUT upload whose file content type is not `image/png` is
answered 400 and the storage state is returned unchanged — no image blob
and no sidecar is created or modified. -/
theorem c7_non_png_rejected_no_write (st : Storage) (fs : FaultSpec)
    (code_id ct fileBytes xData : String) (xSize : Int) (now : Nat)
    (hct : ct ≠ "image/png") :
    upload_qr_code st fs code_id ct fileBytes xData xSize now =
      (st, { status := 400 }) := by
  simp [upload_qr_code, hct]

/-- Closed witness for `c7_non_png_rejected_no_write`. -/
theorem c7_non_png_rejected_no_write_witness :
    upload_qr_code [] noFault "a.png" "image/jpeg" "i" "d" 3 9 =
      ([], { status := 400 }) :=
  c7_non_png_rejected_no_write [] noFault "a.png" "image/jpeg" "i" "d" 3 9
    (by decide)

/-- C10: a successful GET of an image whose sidecar is absent or
unparseable stores a fresh record under the sidecar key with `data = ""`,
`size = 0`, `access_count = 1`, and `created_at = last_accessed = now`,
replacing whatever the sidecar previously held. -/
theorem c10_get_synthesizes_empty_provenance (st : Storage) (fs : FaultSpec)
    (code_id : String) (now : Nat)
    (himg : blob_exists st code_id = true)
    (hmeta : ∀ m : Metadata,
      lookupBlob st (sidecarName code_id) ≠ some (BlobContent.meta m))
    (hfs : fs = noFault) :
    (get_qr_code st fs code_id now).2.status = 200 ∧
    lookupBlob (get_qr_code st fs code_id now).1 (sidecarName code_id) =
      some (BlobContent.meta (freshMetadata (stripPng code_id) "" 0 now)) := by
  subst hfs
  have heq := update_metadata_fresh_eq st noFault (stripPng code_id) "" 0 true now
    (Or.inl hmeta) rfl
  have hdl : noFault.downloadImageFails = false := rfl
  refine ⟨?_, ?_⟩
  · simp [get_qr_code, himg, heq, hdl]
  · simp only [get_qr_code, himg, Bool.true_eq_false, not_false_eq_true,
      Bool.not_eq_true, heq, hdl, ite_false, if_false]
    rw [show sidecarName code_id = metadataBlobName (stripPng code_id) from rfl]
    simp only [not_true, Bool.false_eq_true, ite_false, if_false]
    rw [lookupBlob_uploadBlob]
    simp

/-- Closed witness for `c10_get_synthesizes_empty_provenance`: the sidecar
holds unparseable bytes and is overwritten by the access event. -/
theorem c10_get_synthesizes_witness :
    (get_qr_code [("a.png", BlobContent.image "i"),
        ("a.metadata", BlobContent.corrupt "junk")] noFault "a.png" 4).2.status = 200 ∧
    lookupBlob (get_qr_code [("a.png", BlobContent.image "i"),
        ("a.metadata", BlobContent.corrupt "junk")] noFault "a.png" 4).1
        (sidecarName "a.png") =
      some (BlobContent.meta (freshMetadata (stripPng "a.png") "" 0 4)) :=
  c10_get_synthesizes_empty_provenance _ noFault "a.png" 4 (by decide)
    (by
      intro m h
      rw [show lookupBlob [("a.png", BlobContent.image "i"),
          ("a.metadata", BlobContent.corrupt "junk")] (sidecarName "a.png") =
          some (BlobContent.corrupt "junk") from by decide] at h
      simp at h) rfl

/-- The C5 scenario evaluated on the model: create (201), get the image
(200), then fetch metadata with the caller-visible `code_id` returned by
create.  The metadata endpoint builds its key as `f"{code_id}.metadata"`
without stripping the `.png` suffix, so it looks up `u1.png.metadata`
while the sidecar written by create/get lives at `u1.metadata`: the fetch
answers 404 instead of 200, although the sidecar it should have returned
exists and holds `access_count = 2`. -/
theorem c5_metadata_fetch_misses_sidecar :
    (create_qr_code [] noFault "u1" "d" 200 1).2.status = 201 ∧
    (get_qr_code (create_qr_code [] noFault "u1" "d" 200 1).1
        noFault "u1.png" 2).2.status = 200 ∧
    (get_qr_code_metadata
        (get_qr_code (create_qr_code [] noFault "u1" "d" 200 1).1
          noFault "u1.png" 2).1
        noFault "u1.png").2.status = 404 ∧
    (get_qr_code_metadata
        (get_qr_code (create_qr_code [] noFault "u1" "d" 200 1).1
          noFault "u1.png" 2).1
        noFault "u1").2 =
      { status := 200,
        body := some { code_id := "u1", data := "d", size := 200,
                       created_at := 1, last_accessed := 2, access_count := 2 } } := by
  refine ⟨?_, ?_, ?_, ?_⟩ <;> decide

/-- C6: after a successful DELETE (status 204) of `code_id`, a GET of the
image answers 404 under any fault specification, and a metadata fetch for
the same logical code — the stripped identifier whose sidecar the delete
handler removes — also answers 404: the sidecar is gone together with the
image. -/
theorem c6_delete_then_404 (st st' : Storage) (fs : FaultSpec)
    (code_id : String) (now : Nat)
    (hdel : delete_qr_code st code_id = (st', { status := 204 })) :
    (get_qr_code st' fs code_id now).2.status = 404 ∧
    (get_qr_code_metadata st' fs (stripPng code_id)).2.status = 404 := by
  unfold delete_qr_code at hdel
  by_cases hex : blob_exists st code_id
  case neg =>
    rw [if_pos (by simp [hex])] at hdel
    exact absurd (congrArg (fun p => p.2.status) hdel) (by simp)
  case pos =>
    rw [if_neg (by simp [hex])] at hdel
    have hkey : ∀ stx : Storage, lookupBlob stx code_id = none →
        lookupBlob stx (sidecarName code_id) = none →
        (get_qr_code stx fs code_id now).2.status = 404 ∧
        (get_qr_code_metadata stx fs (stripPng code_id)).2.status = 404 := by
      intro stx h1 h2
      constructor
      · simp [get_qr_code, blob_exists, h1]
      · have h2' : lookupBlob stx (metadataBlobName (stripPng code_id)) = none := h2
        simp [get_qr_code_metadata, blob_exists, h2']
    by_cases hm : blob_exists (deleteBlob st code_id) (sidecarName code_id)
    · rw [if_pos hm] at hdel
      have hst' : st' = deleteBlob (deleteBlob st code_id) (sidecarName code_id) :=
        (congrArg Prod.fst hdel).symm
      subst hst'
      refine hkey _ ?_ ?_
      · rw [lookupBlob_deleteBlob]
        split
        · rfl
        · rw [lookupBlob_deleteBlob]
          simp
      · rw [lookupBlob_deleteBlob]
        simp
    · rw [if_neg hm] at hdel
      have hst' : st' = deleteBlob st code_id := (congrArg Prod.fst hdel).symm
      subst hst'
      refine hkey _ ?_ ?_
      · rw [lookupBlob_deleteBlob]
        simp
      · cases hlk : lookupBlob (deleteBlob st code_id) (sidecarName code_id) with
        | none => rfl
        | some c => exact absurd (by simp [blob_exists, hlk]) hm

/-- Closed witness for `c6_delete_then_404`. -/
theorem c6_delete_then_404_witness :
    (get_qr_code [] noFault "a.png" 7).2.status = 404 ∧
    (get_qr_code_metadata [] noFault (stripPng "a.png")).2.status = 404 :=
  c6_delete_then_404
    [("a.png", BlobContent.image "i"), ("a.metadata", BlobContent.meta (freshMetadata "a" "d" 3 0))]
    [] noFault "a.png" 7 (by decide)

/-- The image GET handler only ever answers 200 or 404. -/
theorem get_qr_code_status (st : Storage) (fs : FaultSpec) (code_id : String)
    (now : Nat) :
    (get_qr_code st fs code_id now).2.status = 200 ∨
    (get_qr_code st fs code_id now).2.status = 404 := by
  unfold get_qr_code
  repeat' split
  all_goals simp

/-- The metadata GET handler only ever answers 200 or 404. -/
theorem get_qr_code_metadata_status (st : Storage) (fs : FaultSpec)
    (code_id : String) :
    (get_qr_code_metadata st fs code_id).2.status = 200 ∨
    (get_qr_code_metadata st fs code_id).2.status = 404 := by
  unfold get_qr_code_metadata
  dsimp only
  split
  · simp
  split
  · simp
  split <;> simp

/-- The HEAD handler only ever answers 200 or 404. -/
theorem check_qr_code_status (st : Storage) (code_id : String) :
    (check_qr_code st code_id).2.status = 200 ∨
    (check_qr_code st code_id).2.status = 404 := by
  unfold check_qr_code
  repeat' split
  all_goals simp

/-- The DELETE handler only ever answers 204 or 404. -/
theorem delete_qr_code_status (st : Storage) (code_id : String) :
    (delete_qr_code st code_id).2.status = 204 ∨
    (delete_qr_code st code_id).2.status = 404 := by
  unfold delete_qr_code
  dsimp only
  split
  · simp
  split <;> simp

/-- With no storage faults, create always answers 201. -/
theorem create_qr_code_noFault_status (st : Storage) (uuid data : String)
    (size : Int) (now : Nat) :
    (create_qr_code st noFault uuid data size now).2.status = 201 := by
  obtain ⟨⟨st1, r⟩, hok⟩ := update_metadata_isOk
    (uploadBlob st (uuid ++ ".png") (BlobContent.image (generate_qr_code data size)))
    noFault (stripPng (uuid ++ ".png")) data size false now rfl
  simp [create_qr_code, hok, show noFault.uploadImageFails = false from rfl]

/-- With no storage faults, upload answers 400 or 201. -/
theorem upload_qr_code_noFault_status (st : Storage)
    (code_id ct fileBytes xData : String) (xSize : Int) (now : Nat) :
    (upload_qr_code st noFault code_id ct fileBytes xData xSize now).2.status = 400 ∨
    (upload_qr_code st noFault code_id ct fileBytes xData xSize now).2.status = 201 := by
  by_cases hct : ct = "image/png"
  · obtain ⟨⟨st1, r⟩, hok⟩ := update_metadata_isOk
      (uploadBlob st code_id (BlobContent.image fileBytes))
      noFault (stripPng code_id) xData xSize false now rfl
    right
    simp [upload_qr_code, hct, hok, show noFault.uploadImageFails = false from rfl]
  · left
    simp [upload_qr_code, hct]

/-- Counterexample to C8 as stated: a create request whose image upload
fails escapes the handler (which has no `try`/`except`) as an unhandled
error — a 5xx, not one of 201/200/204/400/404. -/
theorem c8_counterexample :
    (handle []
      { downloadMetaFails := false, uploadMetaFails := false,
        uploadImageFails := true, downloadImageFails := false }
      "u1" 0 (Request.create "d" 300)).2.status = 500 := by
  decide

/-- C8 (amended): the four handlers wrapped in `try`/`except` (image GET,
metadata GET, HEAD, DELETE) answer only 200/204/404 under any storage
faults; when every storage call succeeds, all six endpoints answer only
201/200/204/400/404.  The create and upload handlers, however, have no
exception handling, so a storage failure there surfaces as an unhandled
5xx error. -/
theorem c8_amended_status_codes (st : Storage) (fs : FaultSpec)
    (uuid : String) (now : Nat) (req : Request) :
    (handledPath req = true →
      (handle st fs uuid now req).2.status = 200 ∨
      (handle st fs uuid now req).2.status = 204 ∨
      (handle st fs uuid now req).2.status = 404) ∧
    (fs = noFault →
      (handle st fs uuid now req).2.status = 201 ∨
      (handle st fs uuid now req).2.status = 200 ∨
      (handle st fs uuid now req).2.status = 204 ∨
      (handle st fs uuid now req).2.status = 400 ∨
      (handle st fs uuid now req).2.status = 404) := by
  cases req with
  | create data size =>
    constructor
    · intro h
      exact absurd h (by simp [handledPath])
    · intro hfs
      subst hfs
      exact Or.inl (create_qr_code_noFault_status st uuid data size now)
  | upload code_id ct fileBytes xData xSize =>
    constructor
    · intro h
      exact absurd h (by simp [handledPath])
    · intro hfs
      subst hfs
      rcases upload_qr_code_noFault_status st code_id ct fileBytes xData xSize now
        with h | h
      · exact Or.inr (Or.inr (Or.inr (Or.inl h)))
      · exact Or.inl h
  | getImage code_id =>
    simp only [handle]
    refine ⟨fun _ => ?_, fun _ => ?_⟩
    · rcases get_qr_code_status st fs code_id now with h | h
      · exact Or.inl h
      · exact Or.inr (Or.inr h)
    · rcases get_qr_code_status st fs code_id now with h | h
      · exact Or.inr (Or.inl h)
      · exact Or.inr (Or.inr (Or.inr (Or.inr h)))
  | getMeta code_id =>
    simp only [handle]
    refine ⟨fun _ => ?_, fun _ => ?_⟩
    · rcases get_qr_code_metadata_status st fs code_id with h | h
      · exact Or.inl h
      · exact Or.inr (Or.inr h)
    · rcases get_qr_code_metadata_status st fs code_id with h | h
      · exact Or.inr (Or.inl h)
      · exact Or.inr (Or.inr (Or.inr (Or.inr h)))
  | headCheck code_id =>
    simp only [handle]
    refine ⟨fun _ => ?_, fun _ => ?_⟩
    · rcases check_qr_code_status st code_id with h | h
      · exact Or.inl h
      · exact Or.inr (Or.inr h)
    · rcases check_qr_code_status st code_id with h | h
      · exact Or.inr (Or.inl h)
      · exact Or.inr (Or.inr (Or.inr (Or.inr h)))
  | deleteCode code_id =>
    simp only [handle]
    refine ⟨fun _ => ?_, fun _ => ?_⟩
    · rcases delete_qr_code_status st code_id with h | h
      · exact Or.inr (Or.inl h)
      · exact Or.inr (Or.inr h)
    · rcases delete_qr_code_status st code_id with h | h
      · exact Or.inr (Or.inr (Or.inl h))
      · exact Or.inr (Or.inr (Or.inr (Or.inr h)))

/-- Closed witness for `c8_amended_status_codes`. -/
theorem c8_amended_status_codes_witness :
    ((handle [] noFault "u" 0 (Request.getImage "a")).2.status = 200 ∨
     (handle [] noFault "u" 0 (Request.getImage "a")).2.status = 204 ∨
     (handle [] noFault "u" 0 (Request.getImage "a")).2.status = 404) ∧
    ((handle [] noFault "u" 0 (Request.getImage "a")).2.status = 201 ∨
     (handle [] noFault "u" 0 (Request.getImage "a")).2.status = 200 ∨
     (handle [] noFault "u" 0 (Request.getImage "a")).2.status = 204 ∨
     (handle [] noFault "u" 0 (Request.getImage "a")).2.status = 400 ∨
     (handle [] noFault "u" 0 (Request.getImage "a")).2.status = 404) :=
  ⟨(c8_amended_status_codes [] noFault "u" 0 (Request.getImage "a")).1 rfl,
   (c8_amended_status_codes [] noFault "u" 0 (Request.getImage "a")).2 rfl⟩

/-- Counterexample to C9 as stated: the sidecar-key mapping is not
injective — the distinct caller-supplied identifiers `"abc"` and
`"abc.png"` map to the same sidecar key, and after uploading both,
storage holds two image objects but a single shared metadata record. -/
theorem c9_counterexample :
    sidecarName "abc" = sidecarName "abc.png" ∧
    ("abc" : String) ≠ "abc.png" ∧
    blob_exists
      (upload_qr_code
        (upload_qr_code [] noFault "abc" "image/png" "i1" "d1" 1 10).1
        noFault "abc.png" "image/png" "i2" "d2" 2 20).1 "abc" = true ∧
    blob_exists
      (upload_qr_code
        (upload_qr_code [] noFault "abc" "image/png" "i1" "d1" 1 10).1
        noFault "abc.png" "image/png" "i2" "d2" 2 20).1 "abc.png" = true ∧
    (List.filter
      (fun p => match p.2 with
        | BlobContent.meta _ => true
        | _ => false)
      ((upload_qr_code
        (upload_qr_code [] noFault "abc" "image/png" "i1" "d1" 1 10).1
        noFault "abc.png" "image/png" "i2" "d2" 2 20).1)).length = 1 := by
  refine ⟨?_, ?_, ?_, ?_, ?_⟩ <;> decide

/-- C9 (amended): the image-key-to-sidecar-key mapping is injective on
identifiers that contain no `".png"` substring (in particular it cannot
conflate two such caller-supplied ids), but ids that differ only by the
stripped suffix — such as `"abc"` and `"abc.png"` — do share one sidecar
record. -/
theorem c9_amended_injective_without_suffix (a b : String)
    (ha : ¬ (".png".data <:+: a.data))
    (hb : ¬ (".png".data <:+: b.data))
    (h : sidecarName a = sidecarName b) : a = b := by
  simp only [sidecarName, metadataBlobName] at h
  rw [stripPng_eq_self_of_no_occ a ha, stripPng_eq_self_of_no_occ b hb] at h
  have hd : a.data ++ ".metadata".data = b.data ++ ".metadata".data := by
    simpa [String.data_append] using congrArg String.data h
  have hab := List.append_cancel_right hd
  obtain ⟨da⟩ := a
  obtain ⟨db⟩ := b
  exact congrArg String.mk hab

/-- Closed witness for `c9_amended_injective_without_suffix`. -/
theorem c9_amended_injective_witness : ("q" : String) = "q" :=
  c9_amended_injective_without_suffix "q" "q" (by decide) (by decide) rfl
